import Mathlib

/-! # Jump-label hash maintenance

A shallow embedding of `p_arch_jump_label_transform.c`: the entry handler that
classifies the address about to be patched, the completion handler that
recomputes the hashes of the region that was patched, and the two functions that
install and remove the hook.

Conventions of the embedding.

* Pointers and integers are natural numbers; the NULL pointer is `0`.
* An explicit `(unsigned int)` cast of the source is `unsigned_int`, reduction
  modulo `2 ^ 32`.
* The two arrays of the database are lists; the element counts
  `p_module_list_nr` and `p_module_kobj_nr` are their lengths. An aggregate hash
  is taken over the images of the first `(unsigned int) nr` elements, as many as
  the length passed to the hash primitive covers.
* Kernel memory is a function from addresses to bytes, passed to the completion
  handler, which is the only handler reading it.
* What the header `p_lkrg_main.h` provides (the hash primitive, the address
  oracles, the layout of the records) is collected in `p_env`.
* The interception facility of the kernel (`register_kretprobe`,
  `unregister_kretprobe`) and the two return codes of the header are collected in
  `p_kprobes`; the calls made to the facility are recorded in `calls`.
* Handlers are atomic steps on `p_globals`; `p_print_log` appends to `p_log`.
  The debug trace `p_debug_kprobe_log` is not a `p_print_log` call and is not
  recorded.
-/

namespace JumpLabel

/-! ## Data model -/

/-- Severity levels this file hands to `p_print_log`. -/
inductive p_log_level where
  | P_LKRG_ERR
  | P_LKRG_INFO
  deriving DecidableEq

/-- The text printed for the second probed argument (source lines 60 to 62). -/
inductive p_jump_label_type where
  | JUMP_LABEL_JMP
  | JUMP_LABEL_NOP
  | UNKNOWN
  deriving DecidableEq

/-- The format strings of the file, with their arguments (the symbol name, a
constant, is left out). -/
inductive p_log_msg where
  | new_modification (type : p_jump_label_type) (code target key : Nat)
  | not_text_section (p_addr : Nat)
  | updating_core_text
  | updating_module_text (p_name : List Nat) (p_mod : Nat)
  | kobj_missing (p_name : List Nat)
  | module_ident (p_name : List Nat) (p_mod : Nat)
  | register_failed (err : Int)
  | planted (kp_addr : Nat)
  | not_installed (kp_addr : Nat)
  | removing (kp_addr : Nat) (nmissed : Int)
  deriving DecidableEq

/-- One call of `p_print_log`. -/
structure p_log_entry where
  level : p_log_level
  msg : p_log_msg
  deriving DecidableEq

/-- Values of `p_db.p_jump_label.p_state`. -/
inductive p_jump_label_state where
  | P_JUMP_LABEL_NONE
  | P_JUMP_LABEL_CORE_TEXT
  | P_JUMP_LABEL_MODULE_TEXT
  | P_JUMP_LABEL_WTF_STATE
  deriving DecidableEq

/-- The shared slot `p_db.p_jump_label`: the state and the module pointer. -/
structure p_jump_label where
  p_state : p_jump_label_state
  p_mod : Nat
  deriving DecidableEq

/-- A hashed memory block such as `p_db.kernel_stext`. -/
structure p_hash_mem_block where
  p_addr : Nat
  p_size : Nat
  p_hash : Nat
  deriving DecidableEq

/-- One element of `p_db.p_module_list_array`. -/
structure p_module_list_mem where
  p_mod : Nat
  p_module_core : Nat
  p_core_text_size : Nat
  p_mod_core_text_hash : Nat
  p_name : List Nat
  deriving DecidableEq

/-- One element of `p_db.p_module_kobj_array`. The handlers use `p_mod` and
`p_mod_core_text_hash`; `p_rest` stands for the remaining fields. -/
structure p_module_kobj_mem where
  p_mod : Nat
  p_mod_core_text_hash : Nat
  p_rest : List Nat
  deriving DecidableEq

/-- The part of `p_db` the two handlers touch. -/
structure p_hash_database where
  p_module_list_array : List p_module_list_mem
  p_module_list_hash : Nat
  p_module_kobj_array : List p_module_kobj_mem
  p_module_kobj_hash : Nat
  kernel_stext : p_hash_mem_block
  p_jump_label : p_jump_label
  deriving DecidableEq

/-- Modelled from the spec: the type `p_lkrg_counter_lock` and its helpers
(`p_lkrg_counter_lock_init`, `p_lkrg_counter_lock_val_inc`,
`p_lkrg_counter_lock_val_dec`, the lock and unlock calls) are declared in
`p_lkrg_main.h`, which is not among the sources. The spec describes an integer
counter set to 0 by install, incremented on entry, decremented on completion. -/
structure p_lkrg_counter_lock where
  p_counter : Int
  deriving DecidableEq

/-- Modelled from the spec: `p_lkrg_counter_lock_init` (absent header), the
counter is initialised to 0. -/
def p_lkrg_counter_lock_init (_l : p_lkrg_counter_lock) : p_lkrg_counter_lock :=
  { p_counter := 0 }

/-- Modelled from the spec: `p_lkrg_counter_lock_val_inc` (absent header), the
counter is incremented. -/
def p_lkrg_counter_lock_val_inc (l : p_lkrg_counter_lock) : p_lkrg_counter_lock :=
  { p_counter := l.p_counter + 1 }

/-- Modelled from the spec: `p_lkrg_counter_lock_val_dec` (absent header), the
counter is decremented. -/
def p_lkrg_counter_lock_val_dec (l : p_lkrg_counter_lock) : p_lkrg_counter_lock :=
  { p_counter := l.p_counter - 1 }

/-- The global variables of the file, and the log sink. -/
structure p_globals where
  p_db : p_hash_database
  p_jl_lock : p_lkrg_counter_lock
  p_arch_jump_label_transform_kretprobe_state : Nat
  p_log : List p_log_entry
  deriving DecidableEq

/-- A decoded `struct jump_entry`: what `p_jump_entry_code`,
`p_jump_entry_target` and `p_jump_entry_key` return for it. -/
structure jump_entry where
  code : Nat
  target : Nat
  key : Nat
  deriving DecidableEq

/-- The probed registers: the first argument (the jump entry it points to) and
the second argument. -/
structure pt_regs where
  arg1 : jump_entry
  arg2 : Nat
  deriving DecidableEq

/-- What the handlers take from the absent header: the two address oracles, the
hash primitive (a function of the bytes it is given), and the in-memory image
of a record of each array (`sizeof` bytes each). -/
structure p_env where
  p_core_kernel_text : Nat → Bool
  p_module_text_address : Nat → Nat
  p_lkrg_fast_hash : List Nat → Nat
  p_module_list_mem_image : p_module_list_mem → List Nat
  p_module_kobj_mem_image : p_module_kobj_mem → List Nat

/-! ## Helpers -/

/-- The cast `(unsigned int)`. -/
def unsigned_int (n : Nat) : Nat := n % 2 ^ 32

/-- The `p_size` bytes of memory starting at `p_val`. -/
def p_read_bytes (mem : Nat → Nat) (p_val p_size : Nat) : List Nat :=
  (List.range p_size).map (fun i => mem (p_val + i))

/-- The `(unsigned int) p_module_list_nr * sizeof(p_module_list_mem)` bytes at the
module list array (source line 145): the images of its first
`(unsigned int) p_module_list_nr` elements. -/
def p_module_list_bytes (env : p_env) (arr : List p_module_list_mem) : List Nat :=
  ((arr.take (unsigned_int arr.length)).map env.p_module_list_mem_image).flatten

/-- The `(unsigned int) p_module_kobj_nr * sizeof(p_module_kobj_mem)` bytes at the
kobj array (source line 173): the images of its first
`(unsigned int) p_module_kobj_nr` elements. -/
def p_module_kobj_bytes (env : p_env) (arr : List p_module_kobj_mem) : List Nat :=
  ((arr.take (unsigned_int arr.length)).map env.p_module_kobj_mem_image).flatten

/-- The text printed for the second argument of the probed function. -/
def p_type_name (arg2 : Nat) : p_jump_label_type :=
  if arg2 = 1 then .JUMP_LABEL_JMP
  else if arg2 = 0 then .JUMP_LABEL_NOP
  else .UNKNOWN

/-- The call `p_print_log(level, ...)`. -/
def p_print_log (level : p_log_level) (msg : p_log_msg) (s : p_globals) : p_globals :=
  { s with p_log := s.p_log ++ [{ level := level, msg := msg }] }

/-! ## The entry handler -/

/-- The function `p_arch_jump_label_transform_entry` (source lines 44 to 94). The
lock and unlock calls around the increment do not change the state. -/
def p_arch_jump_label_transform_entry (env : p_env) (p_regs : pt_regs) (s : p_globals) :
    p_globals × Int :=
  let p_tmp := p_regs.arg1
  let p_addr := p_tmp.code
  let s := { s with p_jl_lock := p_lkrg_counter_lock_val_inc s.p_jl_lock }
  let s := p_print_log .P_LKRG_INFO
    (.new_modification (p_type_name p_regs.arg2) p_tmp.code p_tmp.target p_tmp.key) s
  let s :=
    if env.p_core_kernel_text p_addr then
      { s with p_db := { s.p_db with
          p_jump_label := { s.p_db.p_jump_label with p_state := .P_JUMP_LABEL_CORE_TEXT } } }
    else
      let p_module := env.p_module_text_address p_addr
      if p_module ≠ 0 then
        { s with p_db := { s.p_db with
            p_jump_label := { p_state := .P_JUMP_LABEL_MODULE_TEXT, p_mod := p_module } } }
      else
        let s := p_print_log .P_LKRG_INFO (.not_text_section p_addr) s
        { s with p_db := { s.p_db with
            p_jump_label := { s.p_db.p_jump_label with p_state := .P_JUMP_LABEL_WTF_STATE } } }
  (s, 0)

/-! ## The completion handler -/

/-- The scan `for (i = 0; i < nr; i++) if (array[i].p_mod == p_mod) ... break;`
shared by the two loops of the completion handler, started at index `i` on the
rest of the array: the first index whose element has this `p_mod`, and that
element. -/
def p_array_lookup {α : Type} (p_mod_of : α → Nat) (p_mod : Nat) :
    List α → Nat → Option (Nat × α)
  | [], _ => none
  | x :: rest, i =>
    if p_mod_of x = p_mod then some (i, x) else p_array_lookup p_mod_of p_mod rest (i + 1)

/-- The outer scan over `p_db.p_module_list_array` (source lines 125 and 126). -/
def p_module_list_lookup (p_mod : Nat) (arr : List p_module_list_mem) :
    Option (Nat × p_module_list_mem) :=
  p_array_lookup p_module_list_mem.p_mod p_mod arr 0

/-- The inner scan over `p_db.p_module_kobj_array` (source lines 150 and 151). -/
def p_module_kobj_lookup (p_mod : Nat) (arr : List p_module_kobj_mem) :
    Option (Nat × p_module_kobj_mem) :=
  p_array_lookup p_module_kobj_mem.p_mod p_mod arr 0

/-- The case `P_JUMP_LABEL_CORE_TEXT` (source lines 104 to 121). The copy under
`P_LKRG_JUMP_LABEL_STEXT_DEBUG` writes a debug buffer only and is left out. -/
def p_jump_label_core_text (env : p_env) (mem : Nat → Nat) (s : p_globals) : p_globals :=
  let p_hash := env.p_lkrg_fast_hash
    (p_read_bytes mem s.p_db.kernel_stext.p_addr (unsigned_int s.p_db.kernel_stext.p_size))
  let s := { s with p_db := { s.p_db with
    kernel_stext := { s.p_db.kernel_stext with p_hash := p_hash } } }
  p_print_log .P_LKRG_INFO .updating_core_text s

/-- The body of the outer loop once the module is found at index `p_tmp`
(source lines 127 to 175). -/
def p_jump_label_module_found (env : p_env) (mem : Nat → Nat) (p_tmp : Nat)
    (m : p_module_list_mem) (s : p_globals) : p_globals :=
  let s := p_print_log .P_LKRG_INFO (.updating_module_text m.p_name m.p_mod) s
  let p_hash := env.p_lkrg_fast_hash
    (p_read_bytes mem m.p_module_core (unsigned_int m.p_core_text_size))
  let m := { m with p_mod_core_text_hash := p_hash }
  let s := { s with p_db := { s.p_db with
    p_module_list_array := s.p_db.p_module_list_array.set p_tmp m } }
  let p_list_hash := env.p_lkrg_fast_hash (p_module_list_bytes env s.p_db.p_module_list_array)
  let s := { s with p_db := { s.p_db with p_module_list_hash := p_list_hash } }
  match p_module_kobj_lookup s.p_db.p_jump_label.p_mod s.p_db.p_module_kobj_array with
  | some (p_tmp2, k) =>
    let s := { s with p_db := { s.p_db with
      p_module_kobj_array := s.p_db.p_module_kobj_array.set p_tmp2
        { k with p_mod_core_text_hash := m.p_mod_core_text_hash } } }
    let p_kobj_hash := env.p_lkrg_fast_hash (p_module_kobj_bytes env s.p_db.p_module_kobj_array)
    { s with p_db := { s.p_db with p_module_kobj_hash := p_kobj_hash } }
  | none =>
    let s := p_print_log .P_LKRG_ERR (.kobj_missing m.p_name) s
    p_print_log .P_LKRG_INFO (.module_ident m.p_name m.p_mod) s

/-- The case `P_JUMP_LABEL_MODULE_TEXT` (source lines 123 to 178). -/
def p_jump_label_module_text (env : p_env) (mem : Nat → Nat) (s : p_globals) : p_globals :=
  match p_module_list_lookup s.p_db.p_jump_label.p_mod s.p_db.p_module_list_array with
  | some (p_tmp, m) => p_jump_label_module_found env mem p_tmp m s
  | none => s

/-- The function `p_arch_jump_label_transform_ret` (source lines 97 to 194). The
cases `P_JUMP_LABEL_WTF_STATE` and `default` do nothing. -/
def p_arch_jump_label_transform_ret (env : p_env) (mem : Nat → Nat) (s : p_globals) :
    p_globals × Int :=
  let s :=
    match s.p_db.p_jump_label.p_state with
    | .P_JUMP_LABEL_CORE_TEXT => p_jump_label_core_text env mem s
    | .P_JUMP_LABEL_MODULE_TEXT => p_jump_label_module_text env mem s
    | .P_JUMP_LABEL_WTF_STATE => s
    | .P_JUMP_LABEL_NONE => s
  let s := { s with p_db := { s.p_db with
    p_jump_label := { s.p_db.p_jump_label with p_state := .P_JUMP_LABEL_NONE } } }
  let s := { s with p_jl_lock := p_lkrg_counter_lock_val_dec s.p_jl_lock }
  (s, 0)

/-- The log entries a step from `s` to `s2` appended to the log. -/
def p_emitted (s s2 : p_globals) : List p_log_entry :=
  s2.p_log.drop s.p_log.length

/-- The record `m` with its hash field replaced by the fast hash of the
`(unsigned int) p_core_text_size` bytes at `p_module_core` (the assignment of
source lines 137 to 139). -/
def p_module_rehashed (env : p_env) (mem : Nat → Nat) (m : p_module_list_mem) :
    p_module_list_mem :=
  let p_hash := env.p_lkrg_fast_hash
    (p_read_bytes mem m.p_module_core (m.p_core_text_size % 2 ^ 32))
  { m with p_mod_core_text_hash := p_hash }

/-- The record `k` with the mirrored hash replaced by `p_hash` (the assignment of
source lines 152 and 153). -/
def p_kobj_mirrored (p_hash : Nat) (k : p_module_kobj_mem) : p_module_kobj_mem :=
  { k with p_mod_core_text_hash := p_hash }

/-! ## Installing and removing the hook -/

/-- The fields of `p_arch_jump_label_transform_kretprobe` this file reads or
initialises: `kp.addr`, `nmissed` and `maxactive`. -/
structure kretprobe where
  kp_addr : Nat
  nmissed : Int
  maxactive : Int
  deriving DecidableEq

/-- The static initialiser of `p_arch_jump_label_transform_kretprobe` (source
lines 34 to 41). -/
def p_arch_jump_label_transform_kretprobe : kretprobe :=
  { kp_addr := 0, nmissed := 0, maxactive := 40 }

/-- A call made to the interception facility. -/
inductive p_kprobes_call where
  | register_kretprobe
  | unregister_kretprobe
  deriving DecidableEq

/-- What install and uninstall take from outside the file: the interception
facility of the kernel, acting on its own state `κ` and on the probe structure
(`register_kretprobe` also returns its `int` result), and the two return codes
of the absent header. -/
structure p_kprobes (κ : Type) where
  register_kretprobe : κ → kretprobe → Int × kretprobe × κ
  unregister_kretprobe : κ → kretprobe → kretprobe × κ
  P_LKRG_SUCCESS : Int
  P_LKRG_GENERAL_ERROR : Int

/-- The globals of the file together with the probe structure, the state of the
interception facility and the record of the calls made to it. -/
structure p_hook_state (κ : Type) where
  globals : p_globals
  p_kretprobe : kretprobe
  kprobes : κ
  calls : List p_kprobes_call

/-- The function `p_install_arch_jump_label_transform_hook` (source lines 197 to
215). -/
def p_install_arch_jump_label_transform_hook {κ : Type} (kp : p_kprobes κ)
    (t : p_hook_state κ) : p_hook_state κ × Int :=
  let t := { t with globals := { t.globals with
    p_jl_lock := p_lkrg_counter_lock_init t.globals.p_jl_lock } }
  let r := kp.register_kretprobe t.kprobes t.p_kretprobe
  let p_tmp := r.1
  let t := { t with
    p_kretprobe := r.2.1
    kprobes := r.2.2
    calls := t.calls ++ [p_kprobes_call.register_kretprobe] }
  if p_tmp ≠ 0 then
    let t := { t with globals := p_print_log .P_LKRG_ERR (.register_failed p_tmp) t.globals }
    (t, kp.P_LKRG_GENERAL_ERROR)
  else
    let t := { t with
      globals := p_print_log .P_LKRG_INFO (.planted t.p_kretprobe.kp_addr) t.globals }
    let t := { t with globals := { t.globals with
      p_arch_jump_label_transform_kretprobe_state := 1 } }
    (t, kp.P_LKRG_SUCCESS)

/-- The function `p_uninstall_arch_jump_label_transform_hook` (source lines 218
to 232). -/
def p_uninstall_arch_jump_label_transform_hook {κ : Type} (kp : p_kprobes κ)
    (t : p_hook_state κ) : p_hook_state κ :=
  if t.globals.p_arch_jump_label_transform_kretprobe_state = 0 then
    { t with
      globals := p_print_log .P_LKRG_INFO (.not_installed t.p_kretprobe.kp_addr) t.globals }
  else
    let r := kp.unregister_kretprobe t.kprobes t.p_kretprobe
    let t := { t with
      p_kretprobe := r.1
      kprobes := r.2
      calls := t.calls ++ [p_kprobes_call.unregister_kretprobe] }
    let t := { t with
      globals := p_print_log .P_LKRG_INFO
        (.removing t.p_kretprobe.kp_addr t.p_kretprobe.nmissed) t.globals }
    { t with globals := { t.globals with
      p_arch_jump_label_transform_kretprobe_state := 0 } }

/-- The five hash-carrying fields of the database: everything but the slot. -/
def p_hash_part (db : p_hash_database) :
    List p_module_list_mem × Nat × List p_module_kobj_mem × Nat × p_hash_mem_block :=
  (db.p_module_list_array, db.p_module_list_hash, db.p_module_kobj_array,
    db.p_module_kobj_hash, db.kernel_stext)

/-! ## Traces of handler calls -/

/-- One handler call: an entry with the probed registers, or a completion with
the kernel memory as it is at that time. -/
inductive p_event where
  | entry (p_regs : pt_regs)
  | ret (mem : Nat → Nat)

/-- The state after one handler call. -/
def p_step (env : p_env) (s : p_globals) : p_event → p_globals
  | .entry p_regs => (p_arch_jump_label_transform_entry env p_regs s).1
  | .ret mem => (p_arch_jump_label_transform_ret env mem s).1

/-- The state after a sequence of handler calls. -/
def p_run (env : p_env) (s : p_globals) (es : List p_event) : p_globals :=
  es.foldl (p_step env) s

/-- With `d` entries still awaiting their completion, every completion of `es`
is matched to an earlier entry and every entry is completed by the end. -/
def p_paired : Nat → List p_event → Bool
  | d, [] => d == 0
  | d, .entry _ :: es => p_paired (d + 1) es
  | 0, .ret _ :: _ => false
  | d + 1, .ret _ :: es => p_paired d es

/-! ## Concrete inputs -/

/-- A hash primitive for concrete runs: the number of bytes hashed. -/
def ex_env : p_env :=
  { p_core_kernel_text := fun a => decide (1000 ≤ a ∧ a < 2000)
    p_module_text_address := fun a => if 5000 ≤ a ∧ a < 6000 then 77 else 0
    p_lkrg_fast_hash := fun bs => bs.length
    p_module_list_mem_image := fun m =>
      [m.p_mod, m.p_module_core, m.p_core_text_size, m.p_mod_core_text_hash] ++ m.p_name
    p_module_kobj_mem_image := fun k => [k.p_mod, k.p_mod_core_text_hash] ++ k.p_rest }

/-- A second hash primitive for concrete runs: the sum of the bytes hashed. -/
def ex_env_sum : p_env :=
  { ex_env with p_lkrg_fast_hash := fun bs => bs.sum }

/-- A memory whose byte at address `a` is `a % 256`. -/
def ex_mem : Nat → Nat := fun a => a % 256

/-- A database tracking module 77 (16 bytes of text at 5000) in both arrays,
with every stored hash stale. -/
def ex_db (st : p_jump_label) : p_hash_database :=
  { p_module_list_array :=
      [ { p_mod := 55, p_module_core := 3000, p_core_text_size := 8,
          p_mod_core_text_hash := 1, p_name := [97] },
        { p_mod := 77, p_module_core := 5000, p_core_text_size := 16,
          p_mod_core_text_hash := 2, p_name := [98] } ]
    p_module_list_hash := 3
    p_module_kobj_array :=
      [ { p_mod := 77, p_mod_core_text_hash := 2, p_rest := [9] },
        { p_mod := 55, p_mod_core_text_hash := 1, p_rest := [8] } ]
    p_module_kobj_hash := 4
    kernel_stext := { p_addr := 1000, p_size := 32, p_hash := 5 }
    p_jump_label := st }

/-- The database `ex_db` with a core image of `2 ^ 32` bytes. -/
def ex_db_big_core (st : p_jump_label) : p_hash_database :=
  { ex_db st with kernel_stext := { p_addr := 1000, p_size := 2 ^ 32, p_hash := 5 } }

/-- The database `ex_db` with a core image of `2 ^ 32` bytes whose stored hash,
`2 ^ 32`, is the hash of the whole image under `ex_env`. -/
def ex_db_big_core_fresh (st : p_jump_label) : p_hash_database :=
  { ex_db st with kernel_stext := { p_addr := 1000, p_size := 2 ^ 32, p_hash := 2 ^ 32 } }

/-- Registers of an entry at an address of the core text under `ex_env`. -/
def ex_regs_core : pt_regs :=
  { arg1 := { code := 1500, target := 1600, key := 42 }, arg2 := 1 }

/-- Registers of an entry at an address of module 77 under `ex_env`. -/
def ex_regs_module : pt_regs :=
  { arg1 := { code := 5004, target := 5010, key := 43 }, arg2 := 0 }

/-- Registers of an entry at an address neither oracle of `ex_env` accepts. -/
def ex_regs_trampoline : pt_regs :=
  { arg1 := { code := 9000, target := 9100, key := 44 }, arg2 := 2 }

/-- Two activations, the second entered before the first completes. -/
def ex_trace : List p_event :=
  [.entry ex_regs_core, .entry ex_regs_module, .ret ex_mem, .ret ex_mem]

/-- A facility for concrete runs; its state is the number of probes attached. It
attaches a first probe at address 4096 and rejects any further one with -22;
detaching reports 3 missed activations. -/
def ex_kprobes : p_kprobes Nat :=
  { register_kretprobe := fun n rp =>
      if n = 0 then (0, { rp with kp_addr := 4096 }, 1) else (-22, rp, n)
    unregister_kretprobe := fun n rp => ({ rp with nmissed := 3 }, n - 1)
    P_LKRG_SUCCESS := 0
    P_LKRG_GENERAL_ERROR := -1 }

/-- The hook not installed, around `ex_db`, with the counter at `c`. -/
def ex_hook (c : Int) : p_hook_state Nat :=
  { globals :=
      { p_db := ex_db { p_state := .P_JUMP_LABEL_NONE, p_mod := 0 }
        p_jl_lock := { p_counter := c }
        p_arch_jump_label_transform_kretprobe_state := 0
        p_log := [] }
    p_kretprobe := p_arch_jump_label_transform_kretprobe
    kprobes := 0
    calls := [] }

/-- The globals around a database, one activation in flight. -/
def ex_globals_of (db : p_hash_database) : p_globals :=
  { p_db := db
    p_jl_lock := { p_counter := 1 }
    p_arch_jump_label_transform_kretprobe_state := 1
    p_log := [] }

/-- The globals around `ex_db`, one activation in flight. -/
def ex_globals (st : p_jump_label) : p_globals :=
  { p_db := ex_db st
    p_jl_lock := { p_counter := 1 }
    p_arch_jump_label_transform_kretprobe_state := 1
    p_log := [] }

/-! ## Lemmas on the helpers -/

theorem p_emitted_append (s s2 : p_globals) (l : List p_log_entry)
    (h : s2.p_log = s.p_log ++ l) : p_emitted s s2 = l := by
  simp [p_emitted, h]

theorem p_read_bytes_length (mem : Nat → Nat) (a n : Nat) :
    (p_read_bytes mem a n).length = n := by
  simp [p_read_bytes]

theorem p_read_bytes_congr (mem mem2 : Nat → Nat) (a n : Nat)
    (h : ∀ i, i < n → mem (a + i) = mem2 (a + i)) :
    p_read_bytes mem a n = p_read_bytes mem2 a n := by
  unfold p_read_bytes
  apply List.map_congr_left
  intro i hi
  exact h i (List.mem_range.mp hi)

theorem p_array_lookup_none {α : Type} (f : α → Nat) (p_mod : Nat) (l : List α) (i : Nat) :
    p_array_lookup f p_mod l i = none ↔ ∀ x ∈ l, f x ≠ p_mod := by
  induction l generalizing i with
  | nil => simp [p_array_lookup]
  | cons x rest ih =>
    by_cases hx : f x = p_mod
    · simp [p_array_lookup, hx]
    · simp [p_array_lookup, hx, ih]

theorem ret_counter (env : p_env) (mem : Nat → Nat) (s : p_globals) :
    (p_arch_jump_label_transform_ret env mem s).1.p_jl_lock.p_counter =
      s.p_jl_lock.p_counter - 1 := by
  unfold p_arch_jump_label_transform_ret
  cases s.p_db.p_jump_label.p_state <;>
    simp [p_lkrg_counter_lock_val_dec, p_jump_label_core_text, p_jump_label_module_text,
      p_jump_label_module_found, p_print_log]
  split
  · split <;> rfl
  · rfl

theorem ret_state_none (env : p_env) (mem : Nat → Nat) (s : p_globals) :
    (p_arch_jump_label_transform_ret env mem s).1.p_db.p_jump_label.p_state =
      .P_JUMP_LABEL_NONE := rfl

theorem ret_core (env : p_env) (mem : Nat → Nat) (s : p_globals)
    (h : s.p_db.p_jump_label.p_state = .P_JUMP_LABEL_CORE_TEXT) :
    (p_arch_jump_label_transform_ret env mem s).1 =
      { p_db := { s.p_db with
          kernel_stext := { s.p_db.kernel_stext with
            p_hash := env.p_lkrg_fast_hash (p_read_bytes mem s.p_db.kernel_stext.p_addr
              (s.p_db.kernel_stext.p_size % 2 ^ 32)) }
          p_jump_label := { s.p_db.p_jump_label with p_state := .P_JUMP_LABEL_NONE } }
        p_jl_lock := { p_counter := s.p_jl_lock.p_counter - 1 }
        p_arch_jump_label_transform_kretprobe_state :=
          s.p_arch_jump_label_transform_kretprobe_state
        p_log := s.p_log ++ [{ level := .P_LKRG_INFO, msg := .updating_core_text }] } := by
  simp [p_arch_jump_label_transform_ret, h, p_jump_label_core_text, p_print_log,
    p_lkrg_counter_lock_val_dec, unsigned_int]

theorem ret_idle (env : p_env) (mem : Nat → Nat) (s : p_globals)
    (h : s.p_db.p_jump_label.p_state = .P_JUMP_LABEL_NONE ∨
      s.p_db.p_jump_label.p_state = .P_JUMP_LABEL_WTF_STATE) :
    (p_arch_jump_label_transform_ret env mem s).1 =
      { s with
        p_db := { s.p_db with
          p_jump_label := { s.p_db.p_jump_label with p_state := .P_JUMP_LABEL_NONE } }
        p_jl_lock := { p_counter := s.p_jl_lock.p_counter - 1 } } := by
  rcases h with h | h <;>
    simp [p_arch_jump_label_transform_ret, h, p_lkrg_counter_lock_val_dec]

theorem ret_module_absent (env : p_env) (mem : Nat → Nat) (s : p_globals)
    (h : s.p_db.p_jump_label.p_state = .P_JUMP_LABEL_MODULE_TEXT)
    (hl : p_module_list_lookup s.p_db.p_jump_label.p_mod s.p_db.p_module_list_array = none) :
    (p_arch_jump_label_transform_ret env mem s).1 =
      { s with
        p_db := { s.p_db with
          p_jump_label := { s.p_db.p_jump_label with p_state := .P_JUMP_LABEL_NONE } }
        p_jl_lock := { p_counter := s.p_jl_lock.p_counter - 1 } } := by
  simp [p_arch_jump_label_transform_ret, h, p_jump_label_module_text, hl,
    p_lkrg_counter_lock_val_dec]

theorem ret_module_no_kobj (env : p_env) (mem : Nat → Nat) (s : p_globals) (i : Nat)
    (m : p_module_list_mem)
    (h : s.p_db.p_jump_label.p_state = .P_JUMP_LABEL_MODULE_TEXT)
    (hl : p_module_list_lookup s.p_db.p_jump_label.p_mod s.p_db.p_module_list_array =
      some (i, m))
    (hk : p_module_kobj_lookup s.p_db.p_jump_label.p_mod s.p_db.p_module_kobj_array = none) :
    (p_arch_jump_label_transform_ret env mem s).1 =
      { p_db := { s.p_db with
          p_module_list_array := s.p_db.p_module_list_array.set i (p_module_rehashed env mem m)
          p_module_list_hash := env.p_lkrg_fast_hash (p_module_list_bytes env
            (s.p_db.p_module_list_array.set i (p_module_rehashed env mem m)))
          p_jump_label := { s.p_db.p_jump_label with p_state := .P_JUMP_LABEL_NONE } }
        p_jl_lock := { p_counter := s.p_jl_lock.p_counter - 1 }
        p_arch_jump_label_transform_kretprobe_state :=
          s.p_arch_jump_label_transform_kretprobe_state
        p_log := s.p_log ++
          [{ level := .P_LKRG_INFO, msg := .updating_module_text m.p_name m.p_mod },
           { level := .P_LKRG_ERR, msg := .kobj_missing m.p_name },
           { level := .P_LKRG_INFO, msg := .module_ident m.p_name m.p_mod }] } := by
  simp [p_arch_jump_label_transform_ret, h, p_jump_label_module_text, hl,
    p_jump_label_module_found, p_print_log, hk, p_lkrg_counter_lock_val_dec,
    p_module_rehashed, unsigned_int]

theorem ret_module_kobj (env : p_env) (mem : Nat → Nat) (s : p_globals) (i j : Nat)
    (m : p_module_list_mem) (k : p_module_kobj_mem)
    (h : s.p_db.p_jump_label.p_state = .P_JUMP_LABEL_MODULE_TEXT)
    (hl : p_module_list_lookup s.p_db.p_jump_label.p_mod s.p_db.p_module_list_array =
      some (i, m))
    (hk : p_module_kobj_lookup s.p_db.p_jump_label.p_mod s.p_db.p_module_kobj_array =
      some (j, k)) :
    (p_arch_jump_label_transform_ret env mem s).1 =
      { p_db := { s.p_db with
          p_module_list_array := s.p_db.p_module_list_array.set i (p_module_rehashed env mem m)
          p_module_list_hash := env.p_lkrg_fast_hash (p_module_list_bytes env
            (s.p_db.p_module_list_array.set i (p_module_rehashed env mem m)))
          p_module_kobj_array := s.p_db.p_module_kobj_array.set j
            (p_kobj_mirrored (p_module_rehashed env mem m).p_mod_core_text_hash k)
          p_module_kobj_hash := env.p_lkrg_fast_hash (p_module_kobj_bytes env
            (s.p_db.p_module_kobj_array.set j
              (p_kobj_mirrored (p_module_rehashed env mem m).p_mod_core_text_hash k)))
          p_jump_label := { s.p_db.p_jump_label with p_state := .P_JUMP_LABEL_NONE } }
        p_jl_lock := { p_counter := s.p_jl_lock.p_counter - 1 }
        p_arch_jump_label_transform_kretprobe_state :=
          s.p_arch_jump_label_transform_kretprobe_state
        p_log := s.p_log ++
          [{ level := .P_LKRG_INFO, msg := .updating_module_text m.p_name m.p_mod }] } := by
  simp [p_arch_jump_label_transform_ret, h, p_jump_label_module_text, hl,
    p_jump_label_module_found, p_print_log, hk, p_lkrg_counter_lock_val_dec,
    p_module_rehashed, p_kobj_mirrored, unsigned_int]

theorem p_module_list_lookup_none (p_mod : Nat) (arr : List p_module_list_mem) :
    p_module_list_lookup p_mod arr = none ↔ ∀ x ∈ arr, x.p_mod ≠ p_mod :=
  p_array_lookup_none _ _ _ _

theorem p_module_list_bytes_eq (env : p_env) (arr : List p_module_list_mem) :
    p_module_list_bytes env arr =
      ((arr.take (arr.length % 2 ^ 32)).map env.p_module_list_mem_image).flatten := rfl

theorem p_module_kobj_bytes_eq (env : p_env) (arr : List p_module_kobj_mem) :
    p_module_kobj_bytes env arr =
      ((arr.take (arr.length % 2 ^ 32)).map env.p_module_kobj_mem_image).flatten := rfl

theorem entry_globals (env : p_env) (p_regs : pt_regs) (s : p_globals) :
    (p_arch_jump_label_transform_entry env p_regs s).1 =
      { p_db := { s.p_db with
          p_jump_label :=
            if env.p_core_kernel_text p_regs.arg1.code = true then
              { p_state := .P_JUMP_LABEL_CORE_TEXT, p_mod := s.p_db.p_jump_label.p_mod }
            else if env.p_module_text_address p_regs.arg1.code ≠ 0 then
              { p_state := .P_JUMP_LABEL_MODULE_TEXT,
                p_mod := env.p_module_text_address p_regs.arg1.code }
            else
              { p_state := .P_JUMP_LABEL_WTF_STATE, p_mod := s.p_db.p_jump_label.p_mod } }
        p_jl_lock := { p_counter := s.p_jl_lock.p_counter + 1 }
        p_arch_jump_label_transform_kretprobe_state :=
          s.p_arch_jump_label_transform_kretprobe_state
        p_log := s.p_log ++
          ({ level := .P_LKRG_INFO,
             msg := .new_modification (p_type_name p_regs.arg2) p_regs.arg1.code
               p_regs.arg1.target p_regs.arg1.key } ::
            if env.p_core_kernel_text p_regs.arg1.code = true then []
            else if env.p_module_text_address p_regs.arg1.code ≠ 0 then []
            else [{ level := .P_LKRG_INFO, msg := .not_text_section p_regs.arg1.code }]) } := by
  unfold p_arch_jump_label_transform_entry
  by_cases hc : env.p_core_kernel_text p_regs.arg1.code = true
  · simp [hc, p_print_log, p_lkrg_counter_lock_val_inc]
  · by_cases hm : env.p_module_text_address p_regs.arg1.code = 0
    · simp [hc, hm, p_print_log, p_lkrg_counter_lock_val_inc]
    · simp [hc, hm, p_print_log, p_lkrg_counter_lock_val_inc]

theorem entry_counter (env : p_env) (p_regs : pt_regs) (s : p_globals) :
    (p_arch_jump_label_transform_entry env p_regs s).1.p_jl_lock.p_counter =
      s.p_jl_lock.p_counter + 1 := by
  rw [entry_globals]

/-! ## The claims -/

/-- C2. Classification by the entry handler: the handler returns 0; afterwards
the slot holds CORE_TEXT when the core-text oracle accepts the address, otherwise
MODULE_TEXT together with exactly the pointer the module oracle returned when
that pointer is not NULL, otherwise WTF_STATE (in the first and last case the
stored module pointer is left as it was); and no log entry of the handler has
error severity, for an unaffiliated address in particular. -/
theorem entry_classifies (env : p_env) (p_regs : pt_regs) (s : p_globals) :
    (p_arch_jump_label_transform_entry env p_regs s).2 = 0 ∧
    (p_arch_jump_label_transform_entry env p_regs s).1.p_db.p_jump_label =
      (if env.p_core_kernel_text p_regs.arg1.code = true then
        { p_state := .P_JUMP_LABEL_CORE_TEXT, p_mod := s.p_db.p_jump_label.p_mod }
      else if env.p_module_text_address p_regs.arg1.code ≠ 0 then
        { p_state := .P_JUMP_LABEL_MODULE_TEXT,
          p_mod := env.p_module_text_address p_regs.arg1.code }
      else
        { p_state := .P_JUMP_LABEL_WTF_STATE, p_mod := s.p_db.p_jump_label.p_mod }) ∧
    ∀ e ∈ p_emitted s (p_arch_jump_label_transform_entry env p_regs s).1,
      e.level ≠ .P_LKRG_ERR := by
  refine ⟨rfl, ?_, ?_⟩
  · rw [entry_globals]
  · intro e he
    rw [p_emitted_append s _ _ (by rw [entry_globals])] at he
    by_cases hc : env.p_core_kernel_text p_regs.arg1.code = true
    · simp [hc] at he
      simp [he]
    · by_cases hm : env.p_module_text_address p_regs.arg1.code = 0
      · simp [hc, hm] at he
        rcases he with he | he <;> simp [he]
      · simp [hc, hm] at he
        simp [he]

theorem p_step_counter (env : p_env) (s : p_globals) (e : p_event) :
    (p_step env s e).p_jl_lock.p_counter =
      match e with
      | .entry _ => s.p_jl_lock.p_counter + 1
      | .ret _ => s.p_jl_lock.p_counter - 1 := by
  cases e with
  | entry p_regs => exact entry_counter env p_regs s
  | ret mem => exact ret_counter env mem s

theorem p_run_cons (env : p_env) (s : p_globals) (e : p_event) (es : List p_event) :
    p_run env s (e :: es) = p_run env (p_step env s e) es := rfl

/-- With `d` entries awaiting completion, a paired trace lowers the counter by
`d` in total and never takes it below that on the way. -/
theorem p_run_counter_paired (env : p_env) (es : List p_event) :
    ∀ (d : Nat) (s : p_globals), p_paired d es = true →
      (p_run env s es).p_jl_lock.p_counter = s.p_jl_lock.p_counter - d ∧
      ∀ k, s.p_jl_lock.p_counter - d ≤ (p_run env s (es.take k)).p_jl_lock.p_counter := by
  induction es with
  | nil =>
    intro d s hp
    have hd : d = 0 := by simpa [p_paired] using hp
    subst hd
    simp [p_run]
  | cons e es ih =>
    intro d s hp
    cases e with
    | entry p_regs =>
      have hp2 : p_paired (d + 1) es = true := by simpa [p_paired] using hp
      obtain ⟨h1, h2⟩ := ih (d + 1) (p_step env s (.entry p_regs)) hp2
      have hc := p_step_counter env s (.entry p_regs)
      simp only at hc
      refine ⟨?_, ?_⟩
      · rw [p_run_cons, h1, hc]; push_cast; omega
      · intro k
        cases k with
        | zero => simp [p_run]
        | succ k =>
          rw [List.take_succ_cons, p_run_cons]
          have := h2 k
          rw [hc] at this
          push_cast at this
          omega
    | ret mem =>
      cases d with
      | zero => simp [p_paired] at hp
      | succ d =>
        have hp2 : p_paired d es = true := by simpa [p_paired] using hp
        obtain ⟨h1, h2⟩ := ih d (p_step env s (.ret mem)) hp2
        have hc := p_step_counter env s (.ret mem)
        simp only at hc
        refine ⟨?_, ?_⟩
        · rw [p_run_cons, h1, hc]; push_cast; omega
        · intro k
          cases k with
          | zero => simp [p_run]; omega
          | succ k =>
            rw [List.take_succ_cons, p_run_cons]
            have := h2 k
            rw [hc] at this
            push_cast
            omega

/-- C3. Counter neutrality: over any sequence of entry and completion handler
calls in which every completion is matched to an earlier entry and every entry
is completed by the end (`p_paired 0`), the counter ends at the value it started
from; after every prefix of the sequence it is at least that starting value, and
so never negative when the starting value is not negative. -/
theorem counter_neutral (env : p_env) (s : p_globals) (es : List p_event)
    (hp : p_paired 0 es = true) :
    (p_run env s es).p_jl_lock.p_counter = s.p_jl_lock.p_counter ∧
    (∀ k, s.p_jl_lock.p_counter ≤ (p_run env s (es.take k)).p_jl_lock.p_counter) ∧
    (0 ≤ s.p_jl_lock.p_counter →
      ∀ k, 0 ≤ (p_run env s (es.take k)).p_jl_lock.p_counter) := by
  obtain ⟨h1, h2⟩ := p_run_counter_paired env es 0 s hp
  refine ⟨by simpa using h1, fun k => by simpa using h2 k, fun h0 k => ?_⟩
  have := h2 k
  simp at this
  omega

/-- Witness for C3: two interleaved activations on `ex_db`. -/
theorem counter_neutral_witness :
    p_paired 0 ex_trace = true ∧
    (p_run ex_env (ex_globals { p_state := .P_JUMP_LABEL_NONE, p_mod := 0 })
      ex_trace).p_jl_lock.p_counter = 1 :=
  ⟨by decide,
    (counter_neutral ex_env (ex_globals { p_state := .P_JUMP_LABEL_NONE, p_mod := 0 })
      ex_trace (by decide)).1⟩

/-- C6, as stated, fails. In `ex_db_big_core` the core image record has size
`2 ^ 32`: the cast to `unsigned int` makes the completion handler hash no byte at
all, and the hash it stores (0 under `ex_env`) is not the hash of the `2 ^ 32`
bytes in the range from address to address + size. -/
theorem core_text_hash_not_over_whole_range :
    (ex_db_big_core { p_state := .P_JUMP_LABEL_CORE_TEXT, p_mod := 0 }).kernel_stext =
      { p_addr := 1000, p_size := 2 ^ 32, p_hash := 5 } ∧
    (p_arch_jump_label_transform_ret ex_env ex_mem (ex_globals_of
      (ex_db_big_core { p_state := .P_JUMP_LABEL_CORE_TEXT, p_mod := 0 }))).1.p_db.kernel_stext.p_hash ≠
    ex_env.p_lkrg_fast_hash (p_read_bytes ex_mem 1000 (2 ^ 32)) := by
  refine ⟨by decide, ?_⟩
  have h1 : (p_arch_jump_label_transform_ret ex_env ex_mem (ex_globals_of
      (ex_db_big_core { p_state := .P_JUMP_LABEL_CORE_TEXT, p_mod := 0 }))).1.p_db.kernel_stext.p_hash =
      0 := by decide
  have h2 : ex_env.p_lkrg_fast_hash (p_read_bytes ex_mem 1000 (2 ^ 32)) = 2 ^ 32 := by
    simp [ex_env, p_read_bytes]
  rw [h1, h2]
  simp

/-- C6, amended. When the slot holds CORE_TEXT, the completion handler sets the
hash of the core image record to the fast hash of the `p_size mod 2 ^ 32` bytes at
`p_addr`, which are exactly the bytes from address to address + size whenever the
size is below `2 ^ 32`; address and size of the record, the module list, the kobj
array and both aggregates are as before. -/
theorem core_text_completion (env : p_env) (mem : Nat → Nat) (s : p_globals)
    (hst : s.p_db.p_jump_label.p_state = .P_JUMP_LABEL_CORE_TEXT) :
    (p_arch_jump_label_transform_ret env mem s).1.p_db.kernel_stext =
      { s.p_db.kernel_stext with
        p_hash := env.p_lkrg_fast_hash (p_read_bytes mem s.p_db.kernel_stext.p_addr
          (s.p_db.kernel_stext.p_size % 2 ^ 32)) } ∧
    (s.p_db.kernel_stext.p_size < 2 ^ 32 →
      (p_arch_jump_label_transform_ret env mem s).1.p_db.kernel_stext.p_hash =
        env.p_lkrg_fast_hash
          (p_read_bytes mem s.p_db.kernel_stext.p_addr s.p_db.kernel_stext.p_size)) ∧
    (p_arch_jump_label_transform_ret env mem s).1.p_db.p_module_list_array =
      s.p_db.p_module_list_array ∧
    (p_arch_jump_label_transform_ret env mem s).1.p_db.p_module_list_hash =
      s.p_db.p_module_list_hash ∧
    (p_arch_jump_label_transform_ret env mem s).1.p_db.p_module_kobj_array =
      s.p_db.p_module_kobj_array ∧
    (p_arch_jump_label_transform_ret env mem s).1.p_db.p_module_kobj_hash =
      s.p_db.p_module_kobj_hash := by
  rw [ret_core env mem s hst]
  refine ⟨rfl, ?_, rfl, rfl, rfl, rfl⟩
  intro hsz
  have hmod32 : s.p_db.kernel_stext.p_size % 2 ^ 32 = s.p_db.kernel_stext.p_size :=
    Nat.mod_eq_of_lt hsz
  simp only [hmod32]

/-- Witness for C6 (amended): the 32 bytes of core text of `ex_db`. -/
theorem core_text_completion_witness :
    (ex_globals { p_state := .P_JUMP_LABEL_CORE_TEXT, p_mod := 0 }).p_db.p_jump_label.p_state =
      .P_JUMP_LABEL_CORE_TEXT ∧
    (p_arch_jump_label_transform_ret ex_env_sum ex_mem
      (ex_globals { p_state := .P_JUMP_LABEL_CORE_TEXT, p_mod := 0 })).1.p_db.kernel_stext =
      { p_addr := 1000, p_size := 32, p_hash := 5872 } :=
  ⟨by decide,
    (core_text_completion ex_env_sum ex_mem
      (ex_globals { p_state := .P_JUMP_LABEL_CORE_TEXT, p_mod := 0 }) (by decide)).1.trans
      (by decide)⟩

/-- C7, as stated, fails. In `ex_db_big_core_fresh` the core image has `2 ^ 32`
bytes and the stored core hash, `2 ^ 32`, is already the hash of those bytes under
`ex_env`: the completion handler run with the slot holding CORE_TEXT casts the
size to `unsigned int`, hashes no byte at all and stores 0, so the core hash does
not keep its prior value. -/
theorem core_text_fresh_hash_not_kept :
    (ex_db_big_core_fresh { p_state := .P_JUMP_LABEL_CORE_TEXT, p_mod := 0 }).kernel_stext =
      { p_addr := 1000, p_size := 2 ^ 32, p_hash := 2 ^ 32 } ∧
    (ex_db_big_core_fresh { p_state := .P_JUMP_LABEL_CORE_TEXT, p_mod := 0 }).kernel_stext.p_hash =
      ex_env.p_lkrg_fast_hash (p_read_bytes ex_mem 1000 (2 ^ 32)) ∧
    (p_arch_jump_label_transform_ret ex_env ex_mem (ex_globals_of
      (ex_db_big_core_fresh
        { p_state := .P_JUMP_LABEL_CORE_TEXT, p_mod := 0 }))).1.p_db.kernel_stext.p_hash ≠
      (ex_db_big_core_fresh { p_state := .P_JUMP_LABEL_CORE_TEXT, p_mod := 0 }).kernel_stext.p_hash := by
  have h2 : ex_env.p_lkrg_fast_hash (p_read_bytes ex_mem 1000 (2 ^ 32)) = 2 ^ 32 := by
    simp [ex_env, p_read_bytes]
  refine ⟨by decide, ?_, by decide⟩
  rw [h2]
  decide

/-- C7, amended. Idempotence of the core-text recomputation. With the slot
holding CORE_TEXT, let a completion run on memory `mem`, then an entry at a
core-text address and a second completion on memory `mem2`, where `mem2` agrees
with `mem` on the bytes of the core image: the core hash after the second
completion is the one after the first; likewise when the CORE_TEXT case of the
handler is run twice in a row, on `mem` and then on `mem2`. And when the stored
core hash already is the fast hash of the bytes the completion reads, the first
`p_size mod 2 ^ 32` bytes of the core image (all of its bytes when the size is
below `2 ^ 32`), the completion leaves it at its prior value. -/
theorem core_text_idempotent (env : p_env) (mem mem2 : Nat → Nat) (p_regs : pt_regs)
    (s : p_globals)
    (hst : s.p_db.p_jump_label.p_state = .P_JUMP_LABEL_CORE_TEXT)
    (hcore : env.p_core_kernel_text p_regs.arg1.code = true)
    (hmem : ∀ i, i < s.p_db.kernel_stext.p_size →
      mem (s.p_db.kernel_stext.p_addr + i) = mem2 (s.p_db.kernel_stext.p_addr + i)) :
    (p_arch_jump_label_transform_ret env mem2
      (p_arch_jump_label_transform_entry env p_regs
        (p_arch_jump_label_transform_ret env mem s).1).1).1.p_db.kernel_stext.p_hash =
      (p_arch_jump_label_transform_ret env mem s).1.p_db.kernel_stext.p_hash ∧
    (p_jump_label_core_text env mem2
      (p_jump_label_core_text env mem s)).p_db.kernel_stext.p_hash =
      (p_jump_label_core_text env mem s).p_db.kernel_stext.p_hash ∧
    (s.p_db.kernel_stext.p_hash = env.p_lkrg_fast_hash (p_read_bytes mem
        s.p_db.kernel_stext.p_addr (unsigned_int s.p_db.kernel_stext.p_size)) →
      (p_arch_jump_label_transform_ret env mem s).1.p_db.kernel_stext.p_hash =
        s.p_db.kernel_stext.p_hash) ∧
    (s.p_db.kernel_stext.p_size < 2 ^ 32 →
      s.p_db.kernel_stext.p_hash = env.p_lkrg_fast_hash (p_read_bytes mem
        s.p_db.kernel_stext.p_addr s.p_db.kernel_stext.p_size) →
      (p_arch_jump_label_transform_ret env mem s).1.p_db.kernel_stext.p_hash =
        s.p_db.kernel_stext.p_hash) := by
  have hbytes : p_read_bytes mem s.p_db.kernel_stext.p_addr
        (s.p_db.kernel_stext.p_size % 2 ^ 32) =
      p_read_bytes mem2 s.p_db.kernel_stext.p_addr (s.p_db.kernel_stext.p_size % 2 ^ 32) :=
    p_read_bytes_congr mem mem2 _ _
      (fun i hi => hmem i (Nat.lt_of_lt_of_le hi (Nat.mod_le _ _)))
  refine ⟨?_, ?_, ?_, ?_⟩
  · rw [ret_core env mem2 _ (by rw [entry_globals]; simp [hcore])]
    rw [entry_globals, ret_core env mem s hst]
    simp only [hbytes]
  · simp only [p_jump_label_core_text, p_print_log, unsigned_int, hbytes]
  · intro hold
    rw [ret_core env mem s hst, hold]
    rfl
  · intro hsz hold
    have hmod32 : s.p_db.kernel_stext.p_size % 2 ^ 32 = s.p_db.kernel_stext.p_size :=
      Nat.mod_eq_of_lt hsz
    rw [ret_core env mem s hst, hold]
    simp only [hmod32]

/-- Witness for C7 (amended): two completions on the core text of `ex_db` with the
memory untouched in between; with the sum of the bytes as hash both leave 5872. -/
theorem core_text_idempotent_witness :
    (ex_globals { p_state := .P_JUMP_LABEL_CORE_TEXT, p_mod := 0 }).p_db.p_jump_label.p_state =
      .P_JUMP_LABEL_CORE_TEXT ∧
    ex_env_sum.p_core_kernel_text ex_regs_core.arg1.code = true ∧
    (p_arch_jump_label_transform_ret ex_env_sum ex_mem
      (p_arch_jump_label_transform_entry ex_env_sum ex_regs_core
        (p_arch_jump_label_transform_ret ex_env_sum ex_mem
          (ex_globals { p_state := .P_JUMP_LABEL_CORE_TEXT, p_mod := 0 })).1).1).1.p_db.kernel_stext.p_hash =
      5872 :=
  ⟨by decide, by decide,
    (core_text_idempotent ex_env_sum ex_mem ex_mem ex_regs_core
      (ex_globals { p_state := .P_JUMP_LABEL_CORE_TEXT, p_mod := 0 })
      (by decide) (by decide) (fun _ _ => rfl)).1.trans (by decide)⟩

/-- C8. Scenario C: for an address that neither oracle accepts, the entry handler
followed by the completion handler leaves the module list, its aggregate, the kobj
array, its aggregate and the core image record as they were; the log entries of
the two calls are the two informational entries of the entry handler, none of
error severity; and the counter, one above its old value after the entry, is back
at its old value after the completion. -/
theorem unaffiliated_target (env : p_env) (mem : Nat → Nat) (p_regs : pt_regs)
    (s : p_globals)
    (hcore : env.p_core_kernel_text p_regs.arg1.code = false)
    (hmod : env.p_module_text_address p_regs.arg1.code = 0) :
    (p_arch_jump_label_transform_ret env mem
      (p_arch_jump_label_transform_entry env p_regs s).1).1.p_db =
      { s.p_db with p_jump_label :=
        { p_state := .P_JUMP_LABEL_NONE, p_mod := s.p_db.p_jump_label.p_mod } } ∧
    p_emitted s (p_arch_jump_label_transform_ret env mem
      (p_arch_jump_label_transform_entry env p_regs s).1).1 =
      [{ level := .P_LKRG_INFO,
         msg := .new_modification (p_type_name p_regs.arg2) p_regs.arg1.code
           p_regs.arg1.target p_regs.arg1.key },
       { level := .P_LKRG_INFO, msg := .not_text_section p_regs.arg1.code }] ∧
    (∀ e ∈ p_emitted s (p_arch_jump_label_transform_ret env mem
        (p_arch_jump_label_transform_entry env p_regs s).1).1,
      e.level = .P_LKRG_INFO) ∧
    (p_arch_jump_label_transform_entry env p_regs s).1.p_jl_lock.p_counter =
      s.p_jl_lock.p_counter + 1 ∧
    (p_arch_jump_label_transform_ret env mem
      (p_arch_jump_label_transform_entry env p_regs s).1).1.p_jl_lock.p_counter =
      s.p_jl_lock.p_counter := by
  have hret : (p_arch_jump_label_transform_ret env mem
      (p_arch_jump_label_transform_entry env p_regs s).1).1 =
      { p_db := { s.p_db with p_jump_label :=
          { p_state := .P_JUMP_LABEL_NONE, p_mod := s.p_db.p_jump_label.p_mod } }
        p_jl_lock := { p_counter := s.p_jl_lock.p_counter }
        p_arch_jump_label_transform_kretprobe_state :=
          s.p_arch_jump_label_transform_kretprobe_state
        p_log := s.p_log ++
          [{ level := .P_LKRG_INFO,
             msg := .new_modification (p_type_name p_regs.arg2) p_regs.arg1.code
               p_regs.arg1.target p_regs.arg1.key },
           { level := .P_LKRG_INFO, msg := .not_text_section p_regs.arg1.code }] } := by
    rw [ret_idle env mem _ (Or.inr (by rw [entry_globals]; simp [hcore, hmod]))]
    rw [entry_globals]
    simp [hcore, hmod]
  have hlog := p_emitted_append s _ _ (congrArg p_globals.p_log hret)
  refine ⟨by rw [hret], hlog, ?_, entry_counter env p_regs s, by rw [hret]⟩
  intro e he
  rw [hlog] at he
  simp at he
  rcases he with he | he <;> rw [he]

/-- Witness for C8: address 9000, which `ex_env` places neither
in the core text nor in a module. -/
theorem unaffiliated_target_witness :
    ex_env.p_core_kernel_text ex_regs_trampoline.arg1.code = false ∧
    ex_env.p_module_text_address ex_regs_trampoline.arg1.code = 0 ∧
    (p_arch_jump_label_transform_ret ex_env ex_mem
      (p_arch_jump_label_transform_entry ex_env ex_regs_trampoline
        (ex_globals { p_state := .P_JUMP_LABEL_NONE, p_mod := 0 })).1).1.p_db =
      ex_db { p_state := .P_JUMP_LABEL_NONE, p_mod := 0 } :=
  ⟨by decide, by decide,
    (unaffiliated_target ex_env ex_mem ex_regs_trampoline
      (ex_globals { p_state := .P_JUMP_LABEL_NONE, p_mod := 0 }) (by decide) (by decide)).1⟩

/-- C9, as stated, fails. In `ex_db` no module-list element has handle 78: the
completion handler run with the slot holding MODULE_TEXT and 78 appends nothing
to the log, so no informational entry is emitted. -/
theorem unloaded_module_not_logged :
    (∀ m ∈ (ex_globals { p_state := .P_JUMP_LABEL_MODULE_TEXT, p_mod := 78 }).p_db.p_module_list_array,
      m.p_mod ≠ 78) ∧
    ¬ ∃ e ∈ p_emitted (ex_globals { p_state := .P_JUMP_LABEL_MODULE_TEXT, p_mod := 78 })
        (p_arch_jump_label_transform_ret ex_env ex_mem
          (ex_globals { p_state := .P_JUMP_LABEL_MODULE_TEXT, p_mod := 78 })).1,
      e.level = .P_LKRG_INFO := by
  decide

/-- C9, amended. When the slot holds MODULE_TEXT and `h` and no module-list
element has handle `h` (whatever the kobj array holds), the completion handler
leaves the module list, its aggregate, the kobj array, its aggregate and the core
image record as they were, and appends no entry at all to the log: no
informational one and no error-severity one. -/
theorem unloaded_module (env : p_env) (mem : Nat → Nat) (s : p_globals) (h : Nat)
    (hst : s.p_db.p_jump_label = { p_state := .P_JUMP_LABEL_MODULE_TEXT, p_mod := h })
    (hout : ∀ m ∈ s.p_db.p_module_list_array, m.p_mod ≠ h) :
    (p_arch_jump_label_transform_ret env mem s).1.p_db =
      { s.p_db with p_jump_label := { p_state := .P_JUMP_LABEL_NONE, p_mod := h } } ∧
    p_emitted s (p_arch_jump_label_transform_ret env mem s).1 = [] := by
  have hstate : s.p_db.p_jump_label.p_state = .P_JUMP_LABEL_MODULE_TEXT := by rw [hst]
  have hmod : s.p_db.p_jump_label.p_mod = h := by rw [hst]
  have hl : p_module_list_lookup s.p_db.p_jump_label.p_mod s.p_db.p_module_list_array =
      none := by
    rw [hmod]
    exact (p_module_list_lookup_none _ _).mpr hout
  have hret := ret_module_absent env mem s hstate hl
  refine ⟨?_, ?_⟩
  · rw [hret]
    simp [hmod]
  · exact p_emitted_append s _ _ (by rw [hret]; simp)

/-- Witness for C9 (amended): handle 78, absent from the module list of
`ex_db`. -/
theorem unloaded_module_witness :
    (∀ m ∈ (ex_globals { p_state := .P_JUMP_LABEL_MODULE_TEXT, p_mod := 78 }).p_db.p_module_list_array,
      m.p_mod ≠ 78) ∧
    p_emitted (ex_globals { p_state := .P_JUMP_LABEL_MODULE_TEXT, p_mod := 78 })
      (p_arch_jump_label_transform_ret ex_env ex_mem
        (ex_globals { p_state := .P_JUMP_LABEL_MODULE_TEXT, p_mod := 78 })).1 = [] :=
  ⟨by decide,
    (unloaded_module ex_env ex_mem
      (ex_globals { p_state := .P_JUMP_LABEL_MODULE_TEXT, p_mod := 78 }) 78
      (by decide) (by decide)).2⟩

/-- C10. Slot consumption: after the completion handler the slot state is NONE,
whatever the state before; a completion handler run while the slot state is NONE
leaves the whole database as it was (every hash included) and logs nothing; and a
second completion right after a first one, on any memory, leaves the database as
the first one left it. -/
theorem slot_consumed (env : p_env) (mem mem2 : Nat → Nat) (s : p_globals) :
    (p_arch_jump_label_transform_ret env mem s).1.p_db.p_jump_label.p_state =
      .P_JUMP_LABEL_NONE ∧
    (s.p_db.p_jump_label.p_state = .P_JUMP_LABEL_NONE →
      (p_arch_jump_label_transform_ret env mem s).1.p_db = s.p_db ∧
      p_emitted s (p_arch_jump_label_transform_ret env mem s).1 = []) ∧
    (p_arch_jump_label_transform_ret env mem2
      (p_arch_jump_label_transform_ret env mem s).1).1.p_db =
      (p_arch_jump_label_transform_ret env mem s).1.p_db := by
  have hnone : ∀ (m : Nat → Nat) (t : p_globals),
      t.p_db.p_jump_label.p_state = .P_JUMP_LABEL_NONE →
      (p_arch_jump_label_transform_ret env m t).1.p_db = t.p_db ∧
      p_emitted t (p_arch_jump_label_transform_ret env m t).1 = [] := by
    intro m t ht
    have hret := ret_idle env m t (Or.inl ht)
    refine ⟨?_, p_emitted_append t _ _ (by rw [hret]; simp)⟩
    rw [hret]
    cases t with
    | mk db l f g =>
      cases db with
      | mk a b c d e st =>
        cases st with
        | mk st md =>
          simp at ht
          simp [ht]
  exact ⟨ret_state_none env mem s, hnone mem s,
    (hnone mem2 _ (ret_state_none env mem s)).1⟩

/-- Witness for C10: a completion on `ex_db` with the slot at NONE. -/
theorem slot_consumed_witness :
    (ex_globals { p_state := .P_JUMP_LABEL_NONE, p_mod := 0 }).p_db.p_jump_label.p_state =
      .P_JUMP_LABEL_NONE ∧
    (p_arch_jump_label_transform_ret ex_env ex_mem
      (ex_globals { p_state := .P_JUMP_LABEL_NONE, p_mod := 0 })).1.p_db =
      (ex_globals { p_state := .P_JUMP_LABEL_NONE, p_mod := 0 }).p_db :=
  ⟨by decide,
    ((slot_consumed ex_env ex_mem ex_mem
      (ex_globals { p_state := .P_JUMP_LABEL_NONE, p_mod := 0 })).2.1 (by decide)).1⟩

/-! ## Install and uninstall, path by path -/

theorem install_failed {κ : Type} (kp : p_kprobes κ) (t : p_hook_state κ)
    (h : (kp.register_kretprobe t.kprobes t.p_kretprobe).1 ≠ 0) :
    p_install_arch_jump_label_transform_hook kp t =
      ({ globals := { t.globals with
            p_jl_lock := { p_counter := 0 }
            p_log := t.globals.p_log ++
              [{ level := .P_LKRG_ERR,
                 msg := .register_failed (kp.register_kretprobe t.kprobes t.p_kretprobe).1 }] }
         p_kretprobe := (kp.register_kretprobe t.kprobes t.p_kretprobe).2.1
         kprobes := (kp.register_kretprobe t.kprobes t.p_kretprobe).2.2
         calls := t.calls ++ [p_kprobes_call.register_kretprobe] },
        kp.P_LKRG_GENERAL_ERROR) := by
  simp [p_install_arch_jump_label_transform_hook, h, p_print_log, p_lkrg_counter_lock_init]

theorem install_succeeded {κ : Type} (kp : p_kprobes κ) (t : p_hook_state κ)
    (h : (kp.register_kretprobe t.kprobes t.p_kretprobe).1 = 0) :
    p_install_arch_jump_label_transform_hook kp t =
      ({ globals := { t.globals with
            p_jl_lock := { p_counter := 0 }
            p_arch_jump_label_transform_kretprobe_state := 1
            p_log := t.globals.p_log ++
              [{ level := .P_LKRG_INFO,
                 msg := .planted
                   (kp.register_kretprobe t.kprobes t.p_kretprobe).2.1.kp_addr }] }
         p_kretprobe := (kp.register_kretprobe t.kprobes t.p_kretprobe).2.1
         kprobes := (kp.register_kretprobe t.kprobes t.p_kretprobe).2.2
         calls := t.calls ++ [p_kprobes_call.register_kretprobe] },
        kp.P_LKRG_SUCCESS) := by
  simp [p_install_arch_jump_label_transform_hook, h, p_print_log, p_lkrg_counter_lock_init]

theorem uninstall_not_installed {κ : Type} (kp : p_kprobes κ) (t : p_hook_state κ)
    (h : t.globals.p_arch_jump_label_transform_kretprobe_state = 0) :
    p_uninstall_arch_jump_label_transform_hook kp t =
      { t with globals := { t.globals with
          p_log := t.globals.p_log ++
            [{ level := .P_LKRG_INFO, msg := .not_installed t.p_kretprobe.kp_addr }] } } := by
  simp [p_uninstall_arch_jump_label_transform_hook, h, p_print_log]

theorem uninstall_installed {κ : Type} (kp : p_kprobes κ) (t : p_hook_state κ)
    (h : t.globals.p_arch_jump_label_transform_kretprobe_state ≠ 0) :
    p_uninstall_arch_jump_label_transform_hook kp t =
      { globals := { t.globals with
          p_arch_jump_label_transform_kretprobe_state := 0
          p_log := t.globals.p_log ++
            [{ level := .P_LKRG_INFO,
               msg := .removing (kp.unregister_kretprobe t.kprobes t.p_kretprobe).1.kp_addr
                 (kp.unregister_kretprobe t.kprobes t.p_kretprobe).1.nmissed }] }
        p_kretprobe := (kp.unregister_kretprobe t.kprobes t.p_kretprobe).1
        kprobes := (kp.unregister_kretprobe t.kprobes t.p_kretprobe).2
        calls := t.calls ++ [p_kprobes_call.unregister_kretprobe] } := by
  simp [p_uninstall_arch_jump_label_transform_hook, h, p_print_log]

/-- C11. Install result. With the two return codes different, install returns
`P_LKRG_GENERAL_ERROR` exactly when `register_kretprobe` returns non-zero (and
`P_LKRG_SUCCESS` otherwise); it makes one call to the facility, a register call,
and leaves the facility in the state that single call produced; the installed
flag is 1 after a success and as it was after a failure. Hence, when a first
install succeeds and the facility rejects the registration of a second install
that follows it, the second install returns the error and the flag is still 1. -/
theorem install_result {κ : Type} (kp : p_kprobes κ) (t : p_hook_state κ)
    (hne : kp.P_LKRG_GENERAL_ERROR ≠ kp.P_LKRG_SUCCESS) :
    ((p_install_arch_jump_label_transform_hook kp t).2 = kp.P_LKRG_GENERAL_ERROR ↔
      (kp.register_kretprobe t.kprobes t.p_kretprobe).1 ≠ 0) ∧
    (p_install_arch_jump_label_transform_hook kp t).2 =
      (if (kp.register_kretprobe t.kprobes t.p_kretprobe).1 ≠ 0 then kp.P_LKRG_GENERAL_ERROR
        else kp.P_LKRG_SUCCESS) ∧
    (p_install_arch_jump_label_transform_hook kp t).1.calls =
      t.calls ++ [p_kprobes_call.register_kretprobe] ∧
    (p_install_arch_jump_label_transform_hook kp t).1.kprobes =
      (kp.register_kretprobe t.kprobes t.p_kretprobe).2.2 ∧
    (p_install_arch_jump_label_transform_hook kp t).1.globals.p_arch_jump_label_transform_kretprobe_state =
      (if (kp.register_kretprobe t.kprobes t.p_kretprobe).1 = 0 then 1
        else t.globals.p_arch_jump_label_transform_kretprobe_state) ∧
    ((kp.register_kretprobe t.kprobes t.p_kretprobe).1 = 0 →
      (kp.register_kretprobe (p_install_arch_jump_label_transform_hook kp t).1.kprobes
        (p_install_arch_jump_label_transform_hook kp t).1.p_kretprobe).1 ≠ 0 →
      (p_install_arch_jump_label_transform_hook kp
        (p_install_arch_jump_label_transform_hook kp t).1).2 = kp.P_LKRG_GENERAL_ERROR ∧
      (p_install_arch_jump_label_transform_hook kp
        (p_install_arch_jump_label_transform_hook kp
          t).1).1.globals.p_arch_jump_label_transform_kretprobe_state = 1) := by
  have hsecond : (kp.register_kretprobe t.kprobes t.p_kretprobe).1 = 0 →
      (kp.register_kretprobe (p_install_arch_jump_label_transform_hook kp t).1.kprobes
        (p_install_arch_jump_label_transform_hook kp t).1.p_kretprobe).1 ≠ 0 →
      (p_install_arch_jump_label_transform_hook kp
        (p_install_arch_jump_label_transform_hook kp t).1).2 = kp.P_LKRG_GENERAL_ERROR ∧
      (p_install_arch_jump_label_transform_hook kp
        (p_install_arch_jump_label_transform_hook kp
          t).1).1.globals.p_arch_jump_label_transform_kretprobe_state = 1 := by
    intro h1 h2
    rw [install_failed kp _ h2]
    refine ⟨rfl, ?_⟩
    rw [install_succeeded kp t h1]
  by_cases h : (kp.register_kretprobe t.kprobes t.p_kretprobe).1 = 0
  · refine ⟨?_, ?_, ?_, ?_, ?_, hsecond⟩
    · rw [install_succeeded kp t h]
      simp [h, Ne.symm hne]
    · rw [install_succeeded kp t h]
      simp [h]
    · rw [install_succeeded kp t h]
    · rw [install_succeeded kp t h]
    · rw [install_succeeded kp t h]
      simp [h]
  · refine ⟨?_, ?_, ?_, ?_, ?_, hsecond⟩
    · rw [install_failed kp t h]
      simp [h]
    · rw [install_failed kp t h]
      simp [h]
    · rw [install_failed kp t h]
    · rw [install_failed kp t h]
    · rw [install_failed kp t h]
      simp [h]

/-- Witness for C11: two installs in a row on the facility `ex_kprobes`, which
rejects the second registration. -/
theorem install_result_witness :
    ex_kprobes.P_LKRG_GENERAL_ERROR ≠ ex_kprobes.P_LKRG_SUCCESS ∧
    (p_install_arch_jump_label_transform_hook ex_kprobes
      (p_install_arch_jump_label_transform_hook ex_kprobes (ex_hook 2)).1).2 = -1 ∧
    (p_install_arch_jump_label_transform_hook ex_kprobes
      (p_install_arch_jump_label_transform_hook ex_kprobes
        (ex_hook 2)).1).1.globals.p_arch_jump_label_transform_kretprobe_state = 1 :=
  ⟨by decide,
    (install_result ex_kprobes (ex_hook 2) (by decide)).2.2.2.2.2 (by decide) (by decide)⟩

theorem uninstall_flag {κ : Type} (kp : p_kprobes κ) (t : p_hook_state κ) :
    (p_uninstall_arch_jump_label_transform_hook kp
      t).globals.p_arch_jump_label_transform_kretprobe_state = 0 := by
  by_cases h : t.globals.p_arch_jump_label_transform_kretprobe_state = 0
  · rw [uninstall_not_installed kp t h]
    exact h
  · rw [uninstall_installed kp t h]

/-- C12. Uninstall. With the installed flag clear, uninstall appends one
informational entry to the log and changes nothing else: no call is made to the
facility. With the flag set, it makes one call to the facility, an unregister
call, logs an informational entry carrying the `nmissed` of the probe structure
as the facility left it, and clears the flag. So the flag is clear after every
uninstall; a second uninstall right after a first one only appends the
informational entry of the not-installed case; and after a successful install
followed by an uninstall the flag is clear, the calls made being one register
and one unregister. -/
theorem uninstall_behaviour {κ : Type} (kp : p_kprobes κ) (t : p_hook_state κ) :
    (t.globals.p_arch_jump_label_transform_kretprobe_state = 0 →
      p_uninstall_arch_jump_label_transform_hook kp t =
        { t with globals := { t.globals with
            p_log := t.globals.p_log ++
              [{ level := .P_LKRG_INFO, msg := .not_installed t.p_kretprobe.kp_addr }] } } ∧
      (p_uninstall_arch_jump_label_transform_hook kp t).calls = t.calls) ∧
    (t.globals.p_arch_jump_label_transform_kretprobe_state ≠ 0 →
      (p_uninstall_arch_jump_label_transform_hook kp t).calls =
        t.calls ++ [p_kprobes_call.unregister_kretprobe] ∧
      (p_uninstall_arch_jump_label_transform_hook kp t).kprobes =
        (kp.unregister_kretprobe t.kprobes t.p_kretprobe).2 ∧
      p_emitted t.globals (p_uninstall_arch_jump_label_transform_hook kp t).globals =
        [{ level := .P_LKRG_INFO,
           msg := .removing (kp.unregister_kretprobe t.kprobes t.p_kretprobe).1.kp_addr
             (kp.unregister_kretprobe t.kprobes t.p_kretprobe).1.nmissed }] ∧
      (p_uninstall_arch_jump_label_transform_hook kp t).globals =
        { t.globals with
          p_arch_jump_label_transform_kretprobe_state := 0
          p_log := (p_uninstall_arch_jump_label_transform_hook kp t).globals.p_log }) ∧
    (p_uninstall_arch_jump_label_transform_hook kp
      t).globals.p_arch_jump_label_transform_kretprobe_state = 0 ∧
    p_uninstall_arch_jump_label_transform_hook kp
        (p_uninstall_arch_jump_label_transform_hook kp t) =
      { p_uninstall_arch_jump_label_transform_hook kp t with
        globals := { (p_uninstall_arch_jump_label_transform_hook kp t).globals with
          p_log := (p_uninstall_arch_jump_label_transform_hook kp t).globals.p_log ++
            [{ level := .P_LKRG_INFO,
               msg := .not_installed
                 (p_uninstall_arch_jump_label_transform_hook kp t).p_kretprobe.kp_addr }] } } ∧
    ((kp.register_kretprobe t.kprobes t.p_kretprobe).1 = 0 →
      (p_uninstall_arch_jump_label_transform_hook kp
        (p_install_arch_jump_label_transform_hook kp
          t).1).globals.p_arch_jump_label_transform_kretprobe_state = 0 ∧
      (p_uninstall_arch_jump_label_transform_hook kp
        (p_install_arch_jump_label_transform_hook kp t).1).calls =
        t.calls ++ [p_kprobes_call.register_kretprobe, p_kprobes_call.unregister_kretprobe]) := by
  refine ⟨?_, ?_, uninstall_flag kp t, ?_, ?_⟩
  · intro h
    rw [uninstall_not_installed kp t h]
    exact ⟨rfl, rfl⟩
  · intro h
    rw [uninstall_installed kp t h]
    refine ⟨rfl, rfl, ?_, rfl⟩
    exact p_emitted_append _ _ _ rfl
  · exact uninstall_not_installed kp _ (uninstall_flag kp t)
  · intro h
    refine ⟨uninstall_flag kp _, ?_⟩
    rw [uninstall_installed kp _ (by rw [install_succeeded kp t h]; simp)]
    rw [install_succeeded kp t h]
    simp

/-- Witness for C12: install on `ex_kprobes`, then uninstall. -/
theorem uninstall_behaviour_witness :
    (ex_kprobes.register_kretprobe (ex_hook 2).kprobes (ex_hook 2).p_kretprobe).1 = 0 ∧
    (p_uninstall_arch_jump_label_transform_hook ex_kprobes
      (p_install_arch_jump_label_transform_hook ex_kprobes
        (ex_hook 2)).1).globals.p_arch_jump_label_transform_kretprobe_state = 0 ∧
    (p_uninstall_arch_jump_label_transform_hook ex_kprobes
      (p_install_arch_jump_label_transform_hook ex_kprobes (ex_hook 2)).1).calls =
      [] ++ [p_kprobes_call.register_kretprobe, p_kprobes_call.unregister_kretprobe] :=
  ⟨by decide, (uninstall_behaviour ex_kprobes (ex_hook 2)).2.2.2.2 (by decide)⟩

/-- C15. Install and the counter. After install the counter is at its initial
value 0 whatever it was before and whatever `register_kretprobe` returned: the
counter lock is initialised before the register call and touched by nothing
after it. So a failed install that starts from a counter other than 0 returns
`P_LKRG_GENERAL_ERROR` and leaves the counter changed. -/
theorem install_resets_counter {κ : Type} (kp : p_kprobes κ) (t : p_hook_state κ) :
    (p_install_arch_jump_label_transform_hook kp t).1.globals.p_jl_lock =
      p_lkrg_counter_lock_init t.globals.p_jl_lock ∧
    (p_install_arch_jump_label_transform_hook kp t).1.globals.p_jl_lock.p_counter = 0 ∧
    ((kp.register_kretprobe t.kprobes t.p_kretprobe).1 ≠ 0 →
      t.globals.p_jl_lock.p_counter ≠ 0 →
      (p_install_arch_jump_label_transform_hook kp t).2 = kp.P_LKRG_GENERAL_ERROR ∧
      (p_install_arch_jump_label_transform_hook kp t).1.globals.p_jl_lock ≠
        t.globals.p_jl_lock) := by
  have hlock : (p_install_arch_jump_label_transform_hook kp t).1.globals.p_jl_lock =
      { p_counter := 0 } := by
    by_cases h : (kp.register_kretprobe t.kprobes t.p_kretprobe).1 = 0
    · rw [install_succeeded kp t h]
    · rw [install_failed kp t h]
  refine ⟨hlock, by rw [hlock], ?_⟩
  intro h hc
  refine ⟨by rw [install_failed kp t h], ?_⟩
  rw [hlock]
  intro heq
  exact hc (by rw [← heq])

/-- Witness for C15: a second install on `ex_kprobes`, rejected, with one
activation in flight (counter 1) when it is called. -/
theorem install_resets_counter_witness :
    (p_install_arch_jump_label_transform_hook ex_kprobes
      { (p_install_arch_jump_label_transform_hook ex_kprobes (ex_hook 0)).1 with
        globals := (p_arch_jump_label_transform_entry ex_env ex_regs_core
          (p_install_arch_jump_label_transform_hook ex_kprobes
            (ex_hook 0)).1.globals).1 }).2 = -1 ∧
    (p_install_arch_jump_label_transform_hook ex_kprobes
      { (p_install_arch_jump_label_transform_hook ex_kprobes (ex_hook 0)).1 with
        globals := (p_arch_jump_label_transform_entry ex_env ex_regs_core
          (p_install_arch_jump_label_transform_hook ex_kprobes
            (ex_hook 0)).1.globals).1 }).1.globals.p_jl_lock ≠
      (p_arch_jump_label_transform_entry ex_env ex_regs_core
        (p_install_arch_jump_label_transform_hook ex_kprobes
          (ex_hook 0)).1.globals).1.p_jl_lock :=
  (install_resets_counter ex_kprobes
    { (p_install_arch_jump_label_transform_hook ex_kprobes (ex_hook 0)).1 with
      globals := (p_arch_jump_label_transform_entry ex_env ex_regs_core
        (p_install_arch_jump_label_transform_hook ex_kprobes
          (ex_hook 0)).1.globals).1 }).2.2 (by decide) (by decide)

/-- The database after a completion depends on the database before it only. -/
theorem ret_db_congr (env : p_env) (mem : Nat → Nat) (s s2 : p_globals)
    (h : s.p_db = s2.p_db) :
    (p_arch_jump_label_transform_ret env mem s).1.p_db =
      (p_arch_jump_label_transform_ret env mem s2).1.p_db := by
  cases hst : s.p_db.p_jump_label.p_state with
  | P_JUMP_LABEL_NONE =>
    rw [ret_idle env mem s (Or.inl hst), ret_idle env mem s2 (Or.inl (by rw [← h]; exact hst))]
    simp [h]
  | P_JUMP_LABEL_WTF_STATE =>
    rw [ret_idle env mem s (Or.inr hst), ret_idle env mem s2 (Or.inr (by rw [← h]; exact hst))]
    simp [h]
  | P_JUMP_LABEL_CORE_TEXT =>
    rw [ret_core env mem s hst, ret_core env mem s2 (by rw [← h]; exact hst)]
    simp [h]
  | P_JUMP_LABEL_MODULE_TEXT =>
    have hst2 : s2.p_db.p_jump_label.p_state = .P_JUMP_LABEL_MODULE_TEXT := by
      rw [← h]; exact hst
    cases hl : p_module_list_lookup s.p_db.p_jump_label.p_mod s.p_db.p_module_list_array with
    | none =>
      rw [ret_module_absent env mem s hst hl,
        ret_module_absent env mem s2 hst2 (by rw [← h]; exact hl)]
      simp [h]
    | some im =>
      cases hk : p_module_kobj_lookup s.p_db.p_jump_label.p_mod s.p_db.p_module_kobj_array with
      | none =>
        rw [ret_module_no_kobj env mem s im.1 im.2 hst hl hk,
          ret_module_no_kobj env mem s2 im.1 im.2 hst2 (by rw [← h]; exact hl)
            (by rw [← h]; exact hk)]
        simp [h]
      | some jk =>
        rw [ret_module_kobj env mem s im.1 jk.1 im.2 jk.2 hst hl hk,
          ret_module_kobj env mem s2 im.1 jk.1 im.2 jk.2 hst2 (by rw [← h]; exact hl)
            (by rw [← h]; exact hk)]
        simp [h]

/-- The hashes after a completion depend only on the hashes before it, on the
slot state and, when that state is MODULE_TEXT, on the stored module pointer. -/
theorem ret_hash_part_congr (env : p_env) (mem : Nat → Nat) (s s2 : p_globals)
    (hh : p_hash_part s.p_db = p_hash_part s2.p_db)
    (hs : s.p_db.p_jump_label.p_state = s2.p_db.p_jump_label.p_state)
    (hm : s.p_db.p_jump_label.p_state = .P_JUMP_LABEL_MODULE_TEXT →
      s.p_db.p_jump_label.p_mod = s2.p_db.p_jump_label.p_mod) :
    p_hash_part (p_arch_jump_label_transform_ret env mem s).1.p_db =
      p_hash_part (p_arch_jump_label_transform_ret env mem s2).1.p_db := by
  simp only [p_hash_part, Prod.mk.injEq] at hh
  obtain ⟨h1, h2, h3, h4, h5⟩ := hh
  cases hst : s.p_db.p_jump_label.p_state with
  | P_JUMP_LABEL_NONE =>
    rw [ret_idle env mem s (Or.inl hst), ret_idle env mem s2 (Or.inl (by rw [← hs]; exact hst))]
    simp [p_hash_part, h1, h2, h3, h4, h5]
  | P_JUMP_LABEL_WTF_STATE =>
    rw [ret_idle env mem s (Or.inr hst), ret_idle env mem s2 (Or.inr (by rw [← hs]; exact hst))]
    simp [p_hash_part, h1, h2, h3, h4, h5]
  | P_JUMP_LABEL_CORE_TEXT =>
    rw [ret_core env mem s hst, ret_core env mem s2 (by rw [← hs]; exact hst)]
    simp [p_hash_part, h1, h2, h3, h4, h5]
  | P_JUMP_LABEL_MODULE_TEXT =>
    have hdb : s.p_db = s2.p_db := by
      have hmod := hm hst
      cases hd : s.p_db with
      | mk a b c d e j =>
        cases hd2 : s2.p_db with
        | mk a2 b2 c2 d2 e2 j2 =>
          rw [hd, hd2] at h1 h2 h3 h4 h5 hs hmod
          simp only at h1 h2 h3 h4 h5 hs hmod
          cases j with
          | mk st md =>
            cases j2 with
            | mk st2 md2 =>
              simp only at hs hmod
              rw [h1, h2, h3, h4, h5, hs, hmod]
    rw [ret_db_congr env mem s s2 hdb]

theorem ret_db_of_none (env : p_env) (mem : Nat → Nat) (s : p_globals)
    (h : s.p_db.p_jump_label.p_state = .P_JUMP_LABEL_NONE) :
    (p_arch_jump_label_transform_ret env mem s).1.p_db = s.p_db := by
  rw [ret_idle env mem s (Or.inl h)]
  cases hd : s.p_db with
  | mk a b c d e j =>
    cases j with
    | mk st md =>
      rw [hd] at h
      simp only at h
      simp [h]

/-- C14. Last writer wins. Over the calls entry(A), entry(B), completion,
completion: after the two entries the slot holds the classification of the
address of B (the state is decided by B alone, and so is the module pointer when
that state is MODULE_TEXT), so the first completion leaves the hashes exactly as
a completion after entry(B) alone would; the second completion finds the slot at
NONE and leaves the whole database as the first one left it; and the counter
ends at the value it started from. Over the calls entry(X), completion, the
completion acts on the database as it would with the slot holding the
classification of the address of X. -/
theorem last_writer_wins (env : p_env) (mem1 mem2 : Nat → Nat) (a b x : pt_regs)
    (s : p_globals) :
    (p_run env s [.entry a, .entry b]).p_db.p_jump_label =
      (if env.p_core_kernel_text b.arg1.code = true then
        { p_state := .P_JUMP_LABEL_CORE_TEXT,
          p_mod := (p_run env s [.entry a]).p_db.p_jump_label.p_mod }
      else if env.p_module_text_address b.arg1.code ≠ 0 then
        { p_state := .P_JUMP_LABEL_MODULE_TEXT,
          p_mod := env.p_module_text_address b.arg1.code }
      else
        { p_state := .P_JUMP_LABEL_WTF_STATE,
          p_mod := (p_run env s [.entry a]).p_db.p_jump_label.p_mod }) ∧
    p_hash_part (p_run env s [.entry a, .entry b, .ret mem1]).p_db =
      p_hash_part (p_run env s [.entry b, .ret mem1]).p_db ∧
    (p_run env s [.entry a, .entry b, .ret mem1]).p_db.p_jump_label.p_state =
      .P_JUMP_LABEL_NONE ∧
    (p_run env s [.entry a, .entry b, .ret mem1, .ret mem2]).p_db =
      (p_run env s [.entry a, .entry b, .ret mem1]).p_db ∧
    (p_run env s [.entry a, .entry b, .ret mem1, .ret mem2]).p_jl_lock.p_counter =
      s.p_jl_lock.p_counter ∧
    (p_run env s [.entry x, .ret mem1]).p_db =
      (p_arch_jump_label_transform_ret env mem1
        { s with p_db := { s.p_db with
            p_jump_label :=
              if env.p_core_kernel_text x.arg1.code = true then
                { p_state := .P_JUMP_LABEL_CORE_TEXT, p_mod := s.p_db.p_jump_label.p_mod }
              else if env.p_module_text_address x.arg1.code ≠ 0 then
                { p_state := .P_JUMP_LABEL_MODULE_TEXT,
                  p_mod := env.p_module_text_address x.arg1.code }
              else
                { p_state := .P_JUMP_LABEL_WTF_STATE,
                  p_mod := s.p_db.p_jump_label.p_mod } } }).1.p_db := by
  refine ⟨?_, ?_, ?_, ?_, ?_, ?_⟩
  · simp only [p_run, List.foldl, p_step]
    rw [entry_globals]
  · simp only [p_run, List.foldl, p_step]
    apply ret_hash_part_congr
    · rw [entry_globals, entry_globals, entry_globals]
      simp [p_hash_part]
    · rw [entry_globals env b, entry_globals env b]
      by_cases hc : env.p_core_kernel_text b.arg1.code = true
      · simp [hc]
      · by_cases hm : env.p_module_text_address b.arg1.code = 0
        · simp [hc, hm]
        · simp [hc, hm]
    · rw [entry_globals env b, entry_globals env b]
      by_cases hc : env.p_core_kernel_text b.arg1.code = true
      · simp [hc]
      · by_cases hm : env.p_module_text_address b.arg1.code = 0
        · simp [hc, hm]
        · simp [hc, hm]
  · simp only [p_run, List.foldl, p_step]
    exact ret_state_none env mem1 _
  · simp only [p_run, List.foldl, p_step]
    exact ret_db_of_none env mem2 _ (ret_state_none env mem1 _)
  · simp only [p_run, List.foldl, p_step]
    rw [ret_counter, ret_counter, entry_counter, entry_counter]
    omega
  · simp only [p_run, List.foldl, p_step]
    apply ret_db_congr
    rw [entry_globals]

/-- Witness for C14: on `ex_db`, activation A patches the core text and B patches
module 77. The first completion rehashes module 77 as after entry(B) alone, and
the core hash is still the stale 5 after both completions. -/
theorem last_writer_wins_witness :
    (p_run ex_env_sum (ex_globals { p_state := .P_JUMP_LABEL_NONE, p_mod := 0 })
      ex_trace).p_db.kernel_stext.p_hash = 5 ∧
    p_hash_part (p_run ex_env_sum (ex_globals { p_state := .P_JUMP_LABEL_NONE, p_mod := 0 })
      [.entry ex_regs_core, .entry ex_regs_module, .ret ex_mem]).p_db =
      p_hash_part (p_run ex_env_sum (ex_globals { p_state := .P_JUMP_LABEL_NONE, p_mod := 0 })
        [.entry ex_regs_module, .ret ex_mem]).p_db :=
  ⟨by decide,
    (last_writer_wins ex_env_sum ex_mem ex_mem ex_regs_core ex_regs_module ex_regs_core
      (ex_globals { p_state := .P_JUMP_LABEL_NONE, p_mod := 0 })).2.1⟩

end JumpLabel
